import Mathlib

/-!
Shallow embedding of `src/main.py`: a FastAPI service that renders Terraform
and Ansible text templates to disk, shells out to the `terraform` and
`ansible-playbook` binaries, polls EC2 for running instances and writes an
Ansible inventory file.

Modelling conventions:
* A completed subprocess (`subprocess.run(..., capture_output=True, text=True)`)
  is a `ToolResult` (exit code, stdout, stderr); each endpoint is a pure
  function of the results of the external calls it performs.
* `raise HTTPException(...)` becomes `Except.error`.  Every handler body sits
  inside `try: ... except Exception as e: raise HTTPException(status_code=500,
  detail=str(e))`, and FastAPI's `HTTPException` is a subclass of `Exception`,
  so an `HTTPException` raised inside the `try` block is caught by that blanket
  clause and re-raised with status 500 and detail `str(e)`.  Starlette defines
  `HTTPException.__str__` as `f"{self.status_code}: {self.detail}"`; the
  re-wrap is modelled by `rewrap` below.  A `raise` placed inside an `except`
  clause (e.g. the `TimeoutExpired` handler of `/configure-database`) is not
  caught again and propagates unchanged.
* The filesystem is a map from path to file content; writing a file is a
  pointwise update.
* Side effects that the claims observe (number of EC2 queries, the sequence of
  `time.sleep` calls, the inventory file content) are returned explicitly.
-/

namespace PgRepl

/-- Result of a completed subprocess invocation: exit code and the captured
standard output and standard error streams. -/
structure ToolResult where
  returncode : Int
  stdout : String
  stderr : String
deriving DecidableEq

/-- FastAPI `HTTPException`: an HTTP status code and a `detail` payload that
becomes the response body `{"detail": ...}`. -/
structure HTTPExc where
  status : Nat
  detail : String
deriving DecidableEq

/-- Python `str()` of a FastAPI/Starlette `HTTPException`.  Starlette defines
`__str__` as `f"{self.status_code}: {self.detail}"`. -/
def strOfHTTPExc (e : HTTPExc) : String :=
  toString e.status ++ ": " ++ e.detail

/-- Re-wrapping performed by each handler's blanket
`except Exception as e: raise HTTPException(status_code=500, detail=str(e))`
clause when the exception it catches is itself an `HTTPException` raised
inside the `try` block. -/
def rewrap (e : HTTPExc) : HTTPExc :=
  ⟨500, strOfHTTPExc e⟩

/-- ASCII lower-casing of one character, modelling Python `str.lower` on the
ASCII range (every string this service classifies is ASCII). -/
def pyLowerChar (c : Char) : Char :=
  if ('A' ≤ c ∧ c ≤ 'Z') then Char.ofNat (c.toNat + 32) else c

/-- Python `str.lower`. -/
def pyLower (s : String) : String :=
  ⟨s.data.map pyLowerChar⟩

/-- Decides whether `pat` is a leading run of `l`. -/
def startsWithChars : List Char → List Char → Bool
  | [], _ => true
  | _ :: _, [] => false
  | a :: pat, b :: l => a == b && startsWithChars pat l

/-- Decides whether `pat` occurs as a contiguous run inside `l`. -/
def containsChars (pat : List Char) : List Char → Bool
  | [] => startsWithChars pat []
  | b :: l => startsWithChars pat (b :: l) || containsChars pat l

/-- Python's substring test `pat in hay`. -/
def strHasSub (hay pat : String) : Bool :=
  containsChars pat.data hay.data

/-- Successful JSON body of `/plan-infrastructure`:
`{"message": ..., "output": result.stdout}`. -/
structure PlanResponse where
  message : String
  output : String
deriving DecidableEq

/-- Endpoint `POST /plan-infrastructure`, as a function of the result of its
`subprocess.run(["terraform", "plan"], ...)` call.  A non-zero exit raises
`HTTPException(500, result.stderr)` inside the `try` block, which the
handler's own `except Exception` clause catches and re-raises re-wrapped. -/
def plan_infrastructure (result : ToolResult) : Except HTTPExc PlanResponse :=
  if result.returncode ≠ 0 then
    .error (rewrap ⟨500, result.stderr⟩)
  else
    .ok ⟨"Terraform plan successful", result.stdout⟩

/-- Abstract external `ansible-playbook` process: how long it would run, and
the result it completes with when allowed to finish. -/
structure Process where
  duration : Nat
  result : ToolResult
deriving DecidableEq

/-- Outcome of `subprocess.run` with a `timeout=` argument. -/
inductive RunOutcome where
  | completed : ToolResult → RunOutcome
  | timedOut : RunOutcome
deriving DecidableEq

/-- The literal `timeout=3600` passed to `subprocess.run` by
`/configure-database`. -/
def ANSIBLE_TIMEOUT : Nat := 3600

/-- Model of `subprocess.run(..., timeout=t)`: raises `TimeoutExpired` when
the process does not finish within `t` time units, otherwise returns its
completed result. -/
def runWithTimeout (t : Nat) (p : Process) : RunOutcome :=
  if p.duration > t then .timedOut else .completed p.result

/-- Successful JSON body of `/configure-database`. -/
structure ConfigResponse where
  message : String
  output : String
deriving DecidableEq

/-- Endpoint `POST /configure-database`, as a function of the external
`ansible-playbook` process.  The `TimeoutExpired` branch raises its
`HTTPException` from inside an `except` clause, so that error is not
re-wrapped; the non-zero-exit branch raises inside the `try` block and is
re-wrapped by the blanket `except Exception` clause. -/
def configure_database (p : Process) : Except HTTPExc ConfigResponse :=
  match runWithTimeout ANSIBLE_TIMEOUT p with
  | .timedOut => .error ⟨500, "Ansible playbook execution timed out"⟩
  | .completed r =>
    if r.returncode ≠ 0 then
      .error (rewrap ⟨500, r.stderr⟩)
    else
      .ok ⟨"Database configuration successful", r.stdout⟩

/-- One tag of an EC2 instance in a `describe_instances` response
(a `{'Key': ..., 'Value': ...}` mapping). -/
structure RawTag where
  key : String
  value : String
deriving DecidableEq

/-- One instance of an EC2 `describe_instances` response.  `PublicIpAddress`
may be absent (`instance.get('PublicIpAddress')` yields `None`); `Tags` may be
absent, in which case `instance.get('Tags', [])` yields the empty list. -/
structure RawInstance where
  instanceId : String
  publicIpAddress : Option String
  tags : List RawTag
deriving DecidableEq

/-- One reservation of an EC2 `describe_instances` response. -/
structure Reservation where
  instances : List RawInstance
deriving DecidableEq

/-- Instance record built by `fetch_instance_ips` for each instance:
`{'id': ..., 'ip': public_ip, 'username': 'ubuntu', 'tags': tags}`. -/
structure Instance where
  id : String
  ip : Option String
  username : String
  tags : List (String × String)
deriving DecidableEq

/-- Lookup in a Python dict built by a comprehension over a pair list: a later
binding of the same key overwrites an earlier one, and a missing key yields
the supplied default (`tags.get('Name', '')`). -/
def dictGet (pairs : List (String × String)) (key dflt : String) : String :=
  match pairs.reverse.find? (fun p => p.fst == key) with
  | some p => p.snd
  | none => dflt

/-- Record built for one raw instance inside `fetch_instance_ips`:
the optional public IP is kept as-is, the username is the constant
`'ubuntu'`, and the tag list becomes a key/value mapping. -/
def toInfo (raw : RawInstance) : Instance :=
  ⟨raw.instanceId, raw.publicIpAddress, "ubuntu",
    raw.tags.map (fun t => (t.key, t.value))⟩

/-- Function `fetch_instance_ips`: iterates over every reservation and every
instance of the `describe_instances` response and collects one record per
instance.  No instance is skipped — in particular an instance without a
public IP is kept, with `ip = none`. -/
def fetch_instance_ips (reservations : List Reservation) : List Instance :=
  reservations.flatMap (fun r => r.instances.map toInfo)

/-- The `Name` tag of a record, defaulting to the empty string
(`info['tags'].get('Name', '')`). -/
def nameOf (info : Instance) : String :=
  dictGet info.tags "Name" ""

/-- Primary classification: `'postgresprimary' in info['tags'].get('Name', '').lower()`. -/
def isPrimaryInfo (info : Instance) : Bool :=
  strHasSub (pyLower (nameOf info)) "postgresprimary"

/-- Replica classification: `'postgresreplica' in info['tags'].get('Name', '').lower()`. -/
def isReplicaInfo (info : Instance) : Bool :=
  strHasSub (pyLower (nameOf info)) "postgresreplica"

/-- The `primary_ips` list comprehension of `apply_infrastructure`. -/
def primary_ips (infos : List Instance) : List Instance :=
  infos.filter isPrimaryInfo

/-- The `replica_ips` list comprehension of `apply_infrastructure`. -/
def replica_ips (infos : List Instance) : List Instance :=
  infos.filter isReplicaInfo

/-- Python f-string rendering of the optional IP field: `None` renders as the
four-character string "None". -/
def pyStrOpt : Option String → String
  | none => "None"
  | some s => s

/-- One inventory host line, written for every record of a group:
`f"{info['username']}@{info['ip']} ansible_python_interpreter=/usr/bin/python3\n"`.
The IP is formatted unconditionally, even when absent. -/
def inventoryLine (info : Instance) : String :=
  info.username ++ "@" ++ pyStrOpt info.ip ++
    " ansible_python_interpreter=/usr/bin/python3\n"

/-- Concatenation of the host lines of one group, in list order (the `for`
loops writing to `inv_file`). -/
def linesConcat : List Instance → String
  | [] => ""
  | info :: rest => inventoryLine info ++ linesConcat rest

/-- The `[primary]` section of the inventory file. -/
def primarySection (prim : List Instance) : String :=
  "[primary]\n" ++ linesConcat prim

/-- The `[replica]` section of the inventory file. -/
def replicaSection (repl : List Instance) : String :=
  "[replica]\n" ++ linesConcat repl

/-- The shared-variables section written last:
`inv_file.write("\n[all:vars]\n")` then `inv_file.write("replication_password=rep\n")`. -/
def varsSection : String :=
  "\n[all:vars]\nreplication_password=rep\n"

/-- Full content of `output/inventory.ini` as written on success. -/
def inventoryContent (prim repl : List Instance) : String :=
  primarySection prim ++ replicaSection repl ++ varsSection

/-- The literal argument of each `time.sleep(15)` call. -/
def SLEEP_INTERVAL : Nat := 15

/-- The retry budget of the discovery loop, `for attempt in range(5)`. -/
def MAX_ATTEMPTS : Nat := 5

/-- Observable trace of the discovery loop: how many `fetch_instance_ips`
queries ran, the argument of each `time.sleep` call in order, and the
primary/replica lists of the succeeding query, if any. -/
structure PollOut where
  numQueries : Nat
  sleeps : List Nat
  found : Option (List Instance × List Instance)
deriving DecidableEq

/-- Success condition of attempt `i`:
`len(primary_ips) >= 1 and len(replica_ips) >= 1` on the result of the
`i`-th `fetch_instance_ips` query. -/
def querySuccess (queries : Nat → List Reservation) (i : Nat) : Prop :=
  1 ≤ (primary_ips (fetch_instance_ips (queries i))).length ∧
  1 ≤ (replica_ips (fetch_instance_ips (queries i))).length

instance (queries : Nat → List Reservation) (i : Nat) :
    Decidable (querySuccess queries i) :=
  inferInstanceAs (Decidable (_ ∧ _))

/-- Body of `for attempt in range(...)` in `apply_infrastructure`: query, test
the success condition, and on failure sleep 15 and move to the next attempt.
The sleep is executed after every unsuccessful attempt, including the last
one, because the loop body ends with `time.sleep(15)` unconditionally. -/
def pollAux (queries : Nat → List Reservation) (attempt : Nat) : Nat → PollOut
  | 0 => ⟨0, [], none⟩
  | budget + 1 =>
    let infos := fetch_instance_ips (queries attempt)
    let prim := primary_ips infos
    let repl := replica_ips infos
    if 1 ≤ prim.length ∧ 1 ≤ repl.length then
      ⟨1, [], some (prim, repl)⟩
    else
      let rest := pollAux queries (attempt + 1) budget
      ⟨rest.numQueries + 1, SLEEP_INTERVAL :: rest.sleeps, rest.found⟩

/-- The whole discovery loop of `apply_infrastructure`:
`for attempt in range(5)` starting at attempt 0. -/
def discovery_poll (queries : Nat → List Reservation) : PollOut :=
  pollAux queries 0 MAX_ATTEMPTS

instance {ε α : Type} [DecidableEq ε] [DecidableEq α] : DecidableEq (Except ε α)
  | .ok a, .ok b =>
    if h : a = b then .isTrue (by rw [h]) else .isFalse (by simp [h])
  | .ok _, .error _ => .isFalse (by simp)
  | .error _, .ok _ => .isFalse (by simp)
  | .error e, .error f =>
    if h : e = f then .isTrue (by rw [h]) else .isFalse (by simp [h])

/-- Observable outcome of `POST /apply-infrastructure`: the HTTP response (a
message on success), the number of discovery queries, the `time.sleep`
arguments in order, and the inventory file content if it was written. -/
structure ApplyOut where
  response : Except HTTPExc String
  numQueries : Nat
  sleeps : List Nat
  inventory : Option String
deriving DecidableEq

/-- Endpoint `POST /apply-infrastructure`, as a function of the
`terraform apply` result, the provider's answer to each discovery query, and
the outcome of the private-key extraction step (`terraform output -raw
private_key` plus the temp PEM file; `.error msg` stands for `str()` of the
exception that step raised, which the blanket `except Exception` clause turns
into `HTTPException(500, str(e))`).  A non-zero `terraform apply` exit raises
`HTTPException(500, result.stderr)` inside the `try` block, and discovery
exhaustion raises `HTTPException(500, "Failed to fetch instance IPs")` inside
the `try` block; both are re-wrapped by the blanket clause.  The inventory
file is written as soon as a query succeeds, before the key step runs. -/
def apply_infrastructure (applyResult : ToolResult)
    (queries : Nat → List Reservation)
    (keyFetch : Except String String) : ApplyOut :=
  if applyResult.returncode ≠ 0 then
    ⟨.error (rewrap ⟨500, applyResult.stderr⟩), 0, [], none⟩
  else
    let poll := discovery_poll queries
    match poll.found with
    | some (prim, repl) =>
      match keyFetch with
      | .ok _ =>
        ⟨.ok "Infrastructure applied and inventory file created successfully",
          poll.numQueries, poll.sleeps, some (inventoryContent prim repl)⟩
      | .error msg =>
        ⟨.error ⟨500, msg⟩, poll.numQueries, poll.sleeps,
          some (inventoryContent prim repl)⟩
    | none =>
      ⟨.error (rewrap ⟨500, "Failed to fetch instance IPs"⟩),
        poll.numQueries, poll.sleeps, none⟩

/-- Constant `KEY_PAIR_NAME` of the service. -/
def KEY_PAIR_NAME : String := "PostgresKey"

/-- Constant `OUTPUT_DIR` of the service. -/
def OUTPUT_DIR : String := "output"

/-- Terraform template text before the first `{instance_type}` interpolation
(the `{KEY_PAIR_NAME}` constant interpolation is inlined). -/
def tfSeg1 : String :=
  "\n" ++
  "        resource \"aws_key_pair\" \"postgres_key\" \x7b\n" ++
  "            key_name = \"" ++ KEY_PAIR_NAME ++ "\"\n" ++
  "            public_key = file(\"~/.ssh/id_rsa.pub\")\n" ++
  "        \x7d\n" ++
  "\n" ++
  "        resource \"aws_instance\" \"postgres_primary\" \x7b\n" ++
  "            ami           = \"ami-06650ca7ed78ff6fa\"\n" ++
  "            instance_type = \""

/-- Terraform template text between `{instance_type}` and `{num_replicas}`. -/
def tfSeg2 : String :=
  "\"\n" ++
  "            key_name      = aws_key_pair.postgres_key.key_name\n" ++
  "            tags = \x7b\n" ++
  "                Name = \"PostgresPrimary\"\n" ++
  "            \x7d\n" ++
  "        \x7d\n" ++
  "\n" ++
  "        resource \"aws_instance\" \"postgres_replicas\" \x7b\n" ++
  "            count         = "

/-- Terraform template text between `{num_replicas}` and the second
`{instance_type}` interpolation. -/
def tfSeg3 : String :=
  "\n" ++
  "            ami           = \"ami-06650ca7ed78ff6fa\"\n" ++
  "            instance_type = \""

/-- Terraform template text after the second `{instance_type}` interpolation. -/
def tfSeg4 : String :=
  "\"\n" ++
  "            key_name      = aws_key_pair.postgres_key.key_name\n" ++
  "            tags = \x7b\n" ++
  "                Name = \"PostgresReplica-$\x7bcount.index + 1\x7d\"\n" ++
  "            \x7d\n" ++
  "        \x7d\n" ++
  "        "

/-- The rendered `terraform_config` f-string of `/generate-code`: only
`instance_type` (twice) and `num_replicas` (once) are interpolated. -/
def terraform_config (instance_type num_replicas : String) : String :=
  tfSeg1 ++ instance_type ++ tfSeg2 ++ num_replicas ++ tfSeg3 ++
    instance_type ++ tfSeg4

/-- The rendered `ansible_playbook` f-string of `/generate-code`.  It contains
no interpolation at all: every `{{{{ ... }}}}` in the source renders to the
literal Jinja text `{{ ... }}`, so the playbook is one constant string. -/
def ansible_playbook : String :=
  "\n" ++
  "        - name: Setup PostgreSQL replication\n" ++
  "          hosts: all\n" ++
  "          become: yes\n" ++
  "          tasks:\n" ++
  "            - name: Install PostgreSQL and dependencies\n" ++
  "              apt:\n" ++
  "                name:\n" ++
  "                  - postgresql\n" ++
  "                  - postgresql-contrib\n" ++
  "                state: present\n" ++
  "                update_cache: yes\n" ++
  "\n" ++
  "            - name: Ensure pip3 is installed\n" ++
  "              apt:\n" ++
  "                name: python3-pip\n" ++
  "                state: present\n" ++
  "                update_cache: yes\n" ++
  "\n" ++
  "            - name: Install psycopg2 system package (via apt)\n" ++
  "              apt:\n" ++
  "                name: python3-psycopg2\n" ++
  "                state: present\n" ++
  "                update_cache: yes\n" ++
  "\n" ++
  "            - name: Get PostgresSQL version\n" ++
  "              command: psql --version\n" ++
  "              register: pg_version_output\n" ++
  "              changed_when: false\n" ++
  "\n" ++
  "            - name: Parse PostgreSQL version\n" ++
  "              set_fact:\n" ++
  "                pg_version: \"\x7b\x7b pg_version_output.stdout.split(\x27 \x27)[2].split(\x27.\x27)[0] \x7d\x7d\"\n" ++
  "\n" ++
  "        - name: Configure primary PostgreSQL server for replication\n" ++
  "          hosts: primary\n" ++
  "          become: yes\n" ++
  "          vars:\n" ++
  "            postgres_password: test\n" ++
  "            replication_password: rep\n" ++
  "          tasks:\n" ++
  "            - name: Ensure PostgreSQL service is started and enabled\n" ++
  "              service:\n" ++
  "                name: postgresql\n" ++
  "                state: started\n" ++
  "                enabled: yes\n" ++
  "\n" ++
  "            - name: Modify pg_hba.conf to allow trust authentication temporarily\n" ++
  "              lineinfile:\n" ++
  "                path: /etc/postgresql/\x7b\x7b pg_version \x7d\x7d/main/pg_hba.conf\n" ++
  "                regexp: \x27^local\\s+all\\s+postgres\x27\n" ++
  "                line: \"local   all             postgres                                trust\"\n" ++
  "                state: present\n" ++
  "\n" ++
  "            - name: Reload PostgreSQL to apply changes to pg_hba.conf\n" ++
  "              command: systemctl reload postgresql\n" ++
  "\n" ++
  "            - name: Set password for postgres user directly via psql command (with sudo)\n" ++
  "              command: sudo -u postgres psql -c \"ALTER USER postgres WITH PASSWORD \x27\x7b\x7b postgres_password \x7d\x7d\x27;\"\n" ++
  "\n" ++
  "            - name: Create replication user\n" ++
  "              postgresql_user:\n" ++
  "                name: replication\n" ++
  "                password: \"\x7b\x7b replication_password \x7d\x7d\"\n" ++
  "                role_attr_flags: \"LOGIN,REPLICATION\"\n" ++
  "                db: postgres\n" ++
  "                state: present\n" ++
  "                login_user: postgres\n" ++
  "                login_password: \"\x7b\x7b postgres_password \x7d\x7d\"\n" ++
  "                login_host: localhost\n" ++
  "\n" ++
  "            - name: Revert pg_hba.conf to md5 authentication for postgres\n" ++
  "              lineinfile:\n" ++
  "                path: /etc/postgresql/\x7b\x7b pg_version \x7d\x7d/main/pg_hba.conf\n" ++
  "                regexp: \x27^local\\s+all\\s+postgres\x27\n" ++
  "                line: \"local   all             postgres                                md5\"\n" ++
  "                state: present\n" ++
  "\n" ++
  "            - name: Reload PostgreSQL to apply changes to pg_hba.conf\n" ++
  "              command: systemctl reload postgresql\n" ++
  "\n" ++
  "            - name: Restart PostgreSQL to apply changes\n" ++
  "              service:\n" ++
  "                name: postgresql\n" ++
  "                state: restarted\n" ++
  "\n" ++
  "\n" ++
  "        - name: Configure replica PostgreSQL server for replication\n" ++
  "          hosts: replica\n" ++
  "          become: yes\n" ++
  "          tasks:\n" ++
  "            - name: Ensure PostgreSQL service is stopped before configuration (if running)\n" ++
  "              service:\n" ++
  "                name: postgresql\n" ++
  "                state: stopped\n" ++
  "              when: ansible_facts.services[\x27postgresql\x27] is defined and ansible_facts.services[\x27postgresql\x27].state == \x27running\x27\n" ++
  "\n" ++
  "            - name: Remove existing data directory on replica (if any)\n" ++
  "              file:\n" ++
  "                path: /var/lib/postgresql/\x7b\x7b pg_version \x7d\x7d/main\n" ++
  "                state: absent\n" ++
  "              when: ansible_facts.services[\x27postgresql\x27] is defined and ansible_facts.services[\x27postgresql\x27].state == \x27stopped\x27\n" ++
  "\n" ++
  "            - name: Perform base backup from primary server\n" ++
  "              command: >\n" ++
  "                pg_basebackup -h \x7b\x7b groups[\x27primary\x27][0] \x7d\x7d -U replication -D /var/lib/postgresql/\x7b\x7b pg_version \x7d\x7d/main -P -R -X stream\n" ++
  "              become: yes\n" ++
  "              become_method: sudo\n" ++
  "              become_user: postgres\n" ++
  "              delegate_to: \"\x7b\x7b groups[\x27primary\x27][0] \x7d\x7d\"\n" ++
  "              environment:\n" ++
  "                PGUSER: replication\n" ++
  "                PGPASSWORD: \"\x7b\x7b replication_password \x7d\x7d\"\n" ++
  "              when: ansible_facts.services[\x27postgresql\x27] is defined and ansible_facts.services[\x27postgresql\x27].state == \x27stopped\x27\n" ++
  "\n" ++
  "            - name: Ensure correct file permissions for PostgreSQL directory on replica\n" ++
  "              file:\n" ++
  "                path: /var/lib/postgresql/\x7b\x7b pg_version \x7d\x7d/main\n" ++
  "                state: directory\n" ++
  "                owner: postgres\n" ++
  "                group: postgres\n" ++
  "                mode: \x270755\x27\n" ++
  "              become: yes\n" ++
  "              become_user: root\n" ++
  "\n" ++
  "            - name: Configure recovery.conf for replication on replica\n" ++
  "              copy:\n" ++
  "                content: |\n" ++
  "                  standby_mode = \x27on\x27\n" ++
  "                  primary_conninfo = \x27host=\x7b\x7b groups[\x27primary\x27][0] \x7d\x7d port=5432 user=replication password=\x7b\x7b replication_password \x7d\x7d\x27\n" ++
  "                  trigger_file = \x27/tmp/postgresql.trigger.5432\x27\n" ++
  "                dest: /var/lib/postgresql/\x7b\x7b pg_version \x7d\x7d/main/recovery.conf\n" ++
  "                owner: postgres\n" ++
  "                group: postgres\n" ++
  "                mode: \x270644\x27\n" ++
  "\n" ++
  "            - name: Start PostgreSQL service on replica\n" ++
  "              service:\n" ++
  "                name: postgresql\n" ++
  "                state: started\n" ++
  "        "

/-- Filesystem under the service: a map from path to file content. -/
def FS : Type := String → Option String

/-- Writing a file: `open(path, "w")` followed by a full write overwrites any
previous content at that path and leaves every other path unchanged. -/
def fsWrite (fs : FS) (path content : String) : FS :=
  fun p => if p = path then some content else fs p

/-- Path `os.path.join(OUTPUT_DIR, "main.tf")`. -/
def terraform_file : String := OUTPUT_DIR ++ "/main.tf"

/-- Path `os.path.join(OUTPUT_DIR, "setup.yml")`. -/
def ansible_file : String := OUTPUT_DIR ++ "/setup.yml"

/-- Request body of `POST /generate-code`: five optional keys.  Values are
modelled by their Python `str()` rendering, which is what the f-string
inserts; the defaults are `"13"`, `"t2.micro"`, `1`, `100`, `"128MB"`. -/
structure GenConfig where
  postgres_version : Option String
  instance_type : Option String
  num_replicas : Option String
  max_connections : Option String
  shared_buffers : Option String
deriving DecidableEq

/-- Endpoint `POST /generate-code`: extracts the five parameters with their
defaults (`config.get(key, default)`), renders the two templates and writes
them to `output/main.tf` and `output/setup.yml`.  As in the source,
`postgres_version`, `max_connections` and `shared_buffers` are extracted but
never used by either template.  No parameter is validated.  Returns the new
filesystem and the confirmation message. -/
def generate_code (config : GenConfig) (fs : FS) : FS × String :=
  let postgres_version := config.postgres_version.getD "13"
  let instance_type := config.instance_type.getD "t2.micro"
  let num_replicas := config.num_replicas.getD "1"
  let max_connections := config.max_connections.getD "100"
  let shared_buffers := config.shared_buffers.getD "128MB"
  let fs1 := fsWrite fs terraform_file (terraform_config instance_type num_replicas)
  let fs2 := fsWrite fs1 ansible_file ansible_playbook
  (fs2, "Terraform and Ansible configurations generated successfully")

/-- Membership of one character in a character list. -/
def charMem (c : Char) : List Char → Bool
  | [] => false
  | b :: l => c == b || charMem c l


theorem pollAux_zero (q : Nat → List Reservation) (a : Nat) :
    pollAux q a 0 = ⟨0, [], none⟩ := rfl

theorem pollAux_succ_pos (q : Nat → List Reservation) (a b : Nat)
    (h : querySuccess q a) :
    pollAux q a (b + 1) =
      ⟨1, [], some (primary_ips (fetch_instance_ips (q a)),
                    replica_ips (fetch_instance_ips (q a)))⟩ := by
  unfold querySuccess at h
  simp only [pollAux]
  rw [if_pos h]

theorem pollAux_succ_neg (q : Nat → List Reservation) (a b : Nat)
    (h : ¬ querySuccess q a) :
    pollAux q a (b + 1) =
      ⟨(pollAux q (a + 1) b).numQueries + 1,
        SLEEP_INTERVAL :: (pollAux q (a + 1) b).sleeps,
        (pollAux q (a + 1) b).found⟩ := by
  unfold querySuccess at h
  simp only [pollAux]
  rw [if_neg h]

theorem pollAux_exhaust (q : Nat → List Reservation) :
    ∀ b a, (∀ i, i < b → ¬ querySuccess q (a + i)) →
      pollAux q a b = ⟨b, List.replicate b SLEEP_INTERVAL, none⟩ := by
  intro b
  induction b with
  | zero => intro a _; rfl
  | succ b ih =>
    intro a h
    have h0 : ¬ querySuccess q a := by simpa using h 0 (Nat.succ_pos b)
    have hrest : ∀ i, i < b → ¬ querySuccess q (a + 1 + i) := by
      intro i hi
      have := h (i + 1) (by omega)
      rwa [show a + (i + 1) = a + 1 + i by omega] at this
    rw [pollAux_succ_neg q a b h0, ih (a + 1) hrest]
    simp [List.replicate_succ]

theorem pollAux_first (q : Nat → List Reservation) :
    ∀ i b a, i < b → querySuccess q (a + i) →
      (∀ j, j < i → ¬ querySuccess q (a + j)) →
      pollAux q a b =
        ⟨i + 1, List.replicate i SLEEP_INTERVAL,
          some (primary_ips (fetch_instance_ips (q (a + i))),
                replica_ips (fetch_instance_ips (q (a + i))))⟩ := by
  intro i
  induction i with
  | zero =>
    intro b a hb hs _
    cases b with
    | zero => omega
    | succ b =>
      rw [pollAux_succ_pos q a b (by simpa using hs)]
      simp
  | succ i ih =>
    intro b a hb hs hmin
    cases b with
    | zero => omega
    | succ b =>
      have h0 : ¬ querySuccess q a := by simpa using hmin 0 (Nat.succ_pos i)
      have hs' : querySuccess q (a + 1 + i) := by
        rwa [show a + (i + 1) = a + 1 + i by omega] at hs
      have hmin' : ∀ j, j < i → ¬ querySuccess q (a + 1 + j) := by
        intro j hj
        have := hmin (j + 1) (by omega)
        rwa [show a + (j + 1) = a + 1 + j by omega] at this
      rw [pollAux_succ_neg q a b h0, ih b (a + 1) (by omega) hs' hmin']
      simp [show a + 1 + i = a + (i + 1) by omega, List.replicate_succ]

theorem pollAux_le (q : Nat → List Reservation) :
    ∀ b a, (pollAux q a b).numQueries ≤ b := by
  intro b
  induction b with
  | zero => intro a; exact Nat.le_refl 0
  | succ b ih =>
    intro a
    by_cases h : querySuccess q a
    · rw [pollAux_succ_pos q a b h]; exact Nat.succ_le_succ (Nat.zero_le b)
    · rw [pollAux_succ_neg q a b h]
      exact Nat.succ_le_succ (ih (a + 1))

theorem pollAux_sleeps (q : Nat → List Reservation) :
    ∀ b a d, d ∈ (pollAux q a b).sleeps → d = SLEEP_INTERVAL := by
  intro b
  induction b with
  | zero => intro a d hd; simp [pollAux_zero] at hd
  | succ b ih =>
    intro a d hd
    by_cases h : querySuccess q a
    · rw [pollAux_succ_pos q a b h] at hd; simp at hd
    · rw [pollAux_succ_neg q a b h] at hd
      rcases List.mem_cons.mp hd with h15 | hrest
      · exact h15
      · exact ih (a + 1) d hrest

/-- C1: the discovery poller performs at most 5 query attempts, every sleep it
performs is the fixed 15-unit interval, it succeeds at the first attempt whose
query sees at least one primary and at least one replica, having made exactly
that many queries, and if no attempt succeeds the endpoint fails with HTTP 500
and a fixed message. -/
theorem C1_discovery_poller (queries : Nat → List Reservation)
    (applyResult : ToolResult) (keyFetch : Except String String)
    (hrc : applyResult.returncode = 0) :
    (discovery_poll queries).numQueries ≤ 5 ∧
    (∀ d ∈ (discovery_poll queries).sleeps, d = 15) ∧
    (∀ i, i < 5 → querySuccess queries i →
      (∀ j, j < i → ¬ querySuccess queries j) →
      (discovery_poll queries).found =
        some (primary_ips (fetch_instance_ips (queries i)),
              replica_ips (fetch_instance_ips (queries i))) ∧
      (discovery_poll queries).numQueries = i + 1) ∧
    ((∀ i, i < 5 → ¬ querySuccess queries i) →
      (apply_infrastructure applyResult queries keyFetch).response =
        .error ⟨500, "500: Failed to fetch instance IPs"⟩) := by
  refine ⟨pollAux_le queries MAX_ATTEMPTS 0, ?_, ?_, ?_⟩
  · intro d hd
    exact pollAux_sleeps queries MAX_ATTEMPTS 0 d hd
  · intro i hi hs hmin
    have hs' : querySuccess queries (0 + i) := by rwa [Nat.zero_add]
    have hmin' : ∀ j, j < i → ¬ querySuccess queries (0 + j) := by
      intro j hj; rw [Nat.zero_add]; exact hmin j hj
    have h5 := pollAux_first queries i MAX_ATTEMPTS 0 hi hs' hmin'
    rw [Nat.zero_add] at h5
    have hdp : discovery_poll queries =
        ⟨i + 1, List.replicate i SLEEP_INTERVAL,
          some (primary_ips (fetch_instance_ips (queries i)),
                replica_ips (fetch_instance_ips (queries i)))⟩ := h5
    rw [hdp]
    exact ⟨rfl, rfl⟩
  · intro hfail
    have hfail' : ∀ i, i < MAX_ATTEMPTS → ¬ querySuccess queries (0 + i) := by
      intro i hi; rw [Nat.zero_add]; exact hfail i hi
    have h5 := pollAux_exhaust queries MAX_ATTEMPTS 0 hfail'
    have hdp : discovery_poll queries =
        ⟨MAX_ATTEMPTS, List.replicate MAX_ATTEMPTS SLEEP_INTERVAL, none⟩ := h5
    simp only [apply_infrastructure]
    rw [if_neg (by simp [hrc])]
    rw [hdp]
    rfl

/-- C1 witness: the failure branch at a provider that never returns any
instance. -/
theorem C1_discovery_poller_witness :
    ((⟨0, "", ""⟩ : ToolResult).returncode = 0) ∧
    ((discovery_poll (fun _ => ([] : List Reservation))).numQueries ≤ 5 ∧
     (∀ d ∈ (discovery_poll (fun _ => ([] : List Reservation))).sleeps, d = 15) ∧
     (∀ i, i < 5 → querySuccess (fun _ => ([] : List Reservation)) i →
       (∀ j, j < i → ¬ querySuccess (fun _ => ([] : List Reservation)) j) →
       (discovery_poll (fun _ => ([] : List Reservation))).found =
         some (primary_ips (fetch_instance_ips []),
               replica_ips (fetch_instance_ips [])) ∧
       (discovery_poll (fun _ => ([] : List Reservation))).numQueries = i + 1) ∧
     ((∀ i, i < 5 → ¬ querySuccess (fun _ => ([] : List Reservation)) i) →
       (apply_infrastructure ⟨0, "", ""⟩ (fun _ => ([] : List Reservation))
           (.ok "KEY")).response =
         .error ⟨500, "500: Failed to fetch instance IPs"⟩)) :=
  ⟨rfl, C1_discovery_poller (fun _ => []) ⟨0, "", ""⟩ (.ok "KEY") rfl⟩

/-- C2 counterexample: a run of discovery in which no query ever returns a
primary (here the provider returns no instance at all) performs 5 queries but
5 sleeps, not 4 — the loop body ends with an unconditional `time.sleep(15)`,
executed after the final attempt as well. -/
theorem C2_counterexample :
    (apply_infrastructure ⟨0, "", ""⟩ (fun _ => ([] : List Reservation))
        (.ok "KEY")).numQueries = 5 ∧
    (apply_infrastructure ⟨0, "", ""⟩ (fun _ => ([] : List Reservation))
        (.ok "KEY")).sleeps = [15, 15, 15, 15, 15] ∧
    ¬ ((apply_infrastructure ⟨0, "", ""⟩ (fun _ => ([] : List Reservation))
        (.ok "KEY")).sleeps.length = 4) := by
  decide

/-- C2 amended: when no query ever returns a primary instance, the poller
performs exactly 5 query attempts and exactly 5 sleeps — one after every
unsuccessful attempt, including the final one — and then reports the
discovery-exhaustion failure as HTTP 500. -/
theorem C2_exhaustion (queries : Nat → List Reservation)
    (applyResult : ToolResult) (keyFetch : Except String String)
    (hrc : applyResult.returncode = 0)
    (hnoprim : ∀ i, primary_ips (fetch_instance_ips (queries i)) = []) :
    (apply_infrastructure applyResult queries keyFetch).numQueries = 5 ∧
    (apply_infrastructure applyResult queries keyFetch).sleeps =
      List.replicate 5 15 ∧
    (apply_infrastructure applyResult queries keyFetch).sleeps.length = 5 ∧
    (apply_infrastructure applyResult queries keyFetch).response =
      .error ⟨500, "500: Failed to fetch instance IPs"⟩ := by
  have hfail : ∀ i, i < MAX_ATTEMPTS → ¬ querySuccess queries (0 + i) := by
    intro i _ hcon
    rw [querySuccess, hnoprim (0 + i)] at hcon
    simp at hcon
  have hdp : discovery_poll queries =
      ⟨MAX_ATTEMPTS, List.replicate MAX_ATTEMPTS SLEEP_INTERVAL, none⟩ :=
    pollAux_exhaust queries MAX_ATTEMPTS 0 hfail
  simp only [apply_infrastructure]
  rw [if_neg (by simp [hrc])]
  rw [hdp]
  exact ⟨rfl, rfl, rfl, rfl⟩

/-- C2 witness: the amended statement at a provider that never returns any
instance. -/
theorem C2_exhaustion_witness :
    ((⟨0, "", ""⟩ : ToolResult).returncode = 0) ∧
    (∀ i : Nat, primary_ips (fetch_instance_ips
        ((fun _ => ([] : List Reservation)) i)) = []) ∧
    ((apply_infrastructure ⟨0, "", ""⟩ (fun _ => ([] : List Reservation))
        (.ok "KEY")).numQueries = 5 ∧
     (apply_infrastructure ⟨0, "", ""⟩ (fun _ => ([] : List Reservation))
        (.ok "KEY")).sleeps = List.replicate 5 15 ∧
     (apply_infrastructure ⟨0, "", ""⟩ (fun _ => ([] : List Reservation))
        (.ok "KEY")).sleeps.length = 5 ∧
     (apply_infrastructure ⟨0, "", ""⟩ (fun _ => ([] : List Reservation))
        (.ok "KEY")).response =
       .error ⟨500, "500: Failed to fetch instance IPs"⟩) :=
  ⟨rfl, fun _ => rfl,
    C2_exhaustion (fun _ => []) ⟨0, "", ""⟩ (.ok "KEY") rfl (fun _ => rfl)⟩

theorem startsWithChars_append (l t : List Char) :
    startsWithChars l (l ++ t) = true := by
  induction l with
  | nil => rfl
  | cons a l ih => simp [startsWithChars, ih]

theorem containsChars_of_startsWith {pat l : List Char}
    (h : startsWithChars pat l = true) : containsChars pat l = true := by
  cases l with
  | nil => exact h
  | cons b l => simp [containsChars, h]

theorem containsChars_append_mid (pat pre post : List Char) :
    containsChars pat (pre ++ (pat ++ post)) = true := by
  induction pre with
  | nil => exact containsChars_of_startsWith (startsWithChars_append pat post)
  | cons b pre ih => simp [containsChars, ih]

theorem strHasSub_of_eq (hay a s b : String) (h : hay = a ++ (s ++ b)) :
    strHasSub hay s = true := by
  subst h
  show containsChars s.data (a ++ (s ++ b)).data = true
  rw [String.data_append, String.data_append]
  exact containsChars_append_mid s.data a.data b.data

theorem strHasSub_suffix (a s : String) : strHasSub (a ++ s) s = true :=
  strHasSub_of_eq (a ++ s) a s "" (by rw [String.append_empty])

theorem charMem_append (c : Char) (a b : List Char) :
    charMem c (a ++ b) = (charMem c a || charMem c b) := by
  induction a with
  | nil => simp [charMem]
  | cons x a ih => simp [charMem, ih, Bool.or_assoc]

theorem containsChars_eq_false_of_charMem {c : Char} {pat l : List Char}
    (h : charMem c l = false) : containsChars (c :: pat) l = false := by
  induction l with
  | nil => rfl
  | cons b l ih =>
    simp only [charMem, Bool.or_eq_false_iff] at h
    simp only [containsChars, startsWithChars, h.1, Bool.false_and, Bool.false_or]
    exact ih h.2

/-- C5: when the very first query returns exactly one primary and exactly one
replica record, the poller makes a single query, invokes no sleep, the
endpoint succeeds, and the written inventory holds exactly one line in the
primary group and exactly one line in the replica group, each line starting
with the record's username, an `@`, and its formatted address. -/
theorem C5_first_query (queries : Nat → List Reservation)
    (applyResult : ToolResult) (key : String) (p r : Instance)
    (hrc : applyResult.returncode = 0)
    (hp : primary_ips (fetch_instance_ips (queries 0)) = [p])
    (hr : replica_ips (fetch_instance_ips (queries 0)) = [r]) :
    (apply_infrastructure applyResult queries (.ok key)).numQueries = 1 ∧
    (apply_infrastructure applyResult queries (.ok key)).sleeps = [] ∧
    (apply_infrastructure applyResult queries (.ok key)).response =
      .ok "Infrastructure applied and inventory file created successfully" ∧
    (apply_infrastructure applyResult queries (.ok key)).inventory =
      some ("[primary]\n" ++ inventoryLine p ++ "[replica]\n" ++
        inventoryLine r ++ varsSection) ∧
    inventoryLine p = p.username ++ "@" ++ pyStrOpt p.ip ++
      " ansible_python_interpreter=/usr/bin/python3\n" ∧
    inventoryLine r = r.username ++ "@" ++ pyStrOpt r.ip ++
      " ansible_python_interpreter=/usr/bin/python3\n" := by
  have hs : querySuccess queries (0 + 0) := by
    rw [Nat.add_zero]
    unfold querySuccess
    rw [hp, hr]
    exact ⟨Nat.le_refl 1, Nat.le_refl 1⟩
  have h5 := pollAux_first queries 0 MAX_ATTEMPTS 0 (by decide) hs
    (fun j hj => absurd hj (Nat.not_lt_zero j))
  rw [Nat.add_zero] at h5
  have hdp : discovery_poll queries = ⟨1, [], some ([p], [r])⟩ := by
    show pollAux queries 0 MAX_ATTEMPTS = _
    rw [h5, hp, hr]
    rfl
  simp only [apply_infrastructure]
  rw [if_neg (by simp [hrc])]
  rw [hdp]
  refine ⟨rfl, rfl, rfl, ?_, rfl, rfl⟩
  show some (inventoryContent [p] [r]) = _
  simp [inventoryContent, primarySection, replicaSection, linesConcat,
    String.append_empty, String.append_assoc]

set_option maxRecDepth 10000 in
/-- C5 witness: a provider returning one primary and one replica on the very
first query. -/
theorem C5_first_query_witness :
    ((⟨0, "", ""⟩ : ToolResult).returncode = 0) ∧
    primary_ips (fetch_instance_ips ((fun _ =>
      [⟨[⟨"i-1", some "1.2.3.4", [⟨"Name", "PostgresPrimary"⟩]⟩,
         ⟨"i-2", some "5.6.7.8", [⟨"Name", "PostgresReplica-1"⟩]⟩]⟩]) 0)) =
      [⟨"i-1", some "1.2.3.4", "ubuntu", [("Name", "PostgresPrimary")]⟩] ∧
    replica_ips (fetch_instance_ips ((fun _ =>
      [⟨[⟨"i-1", some "1.2.3.4", [⟨"Name", "PostgresPrimary"⟩]⟩,
         ⟨"i-2", some "5.6.7.8", [⟨"Name", "PostgresReplica-1"⟩]⟩]⟩]) 0)) =
      [⟨"i-2", some "5.6.7.8", "ubuntu", [("Name", "PostgresReplica-1")]⟩] ∧
    ((apply_infrastructure ⟨0, "", ""⟩ (fun _ =>
      [⟨[⟨"i-1", some "1.2.3.4", [⟨"Name", "PostgresPrimary"⟩]⟩,
         ⟨"i-2", some "5.6.7.8", [⟨"Name", "PostgresReplica-1"⟩]⟩]⟩])
        (.ok "KEY")).numQueries = 1 ∧
     (apply_infrastructure ⟨0, "", ""⟩ (fun _ =>
      [⟨[⟨"i-1", some "1.2.3.4", [⟨"Name", "PostgresPrimary"⟩]⟩,
         ⟨"i-2", some "5.6.7.8", [⟨"Name", "PostgresReplica-1"⟩]⟩]⟩])
        (.ok "KEY")).sleeps = []) :=
  ⟨rfl, by decide, by decide, by
    have h := C5_first_query (fun _ =>
      [⟨[⟨"i-1", some "1.2.3.4", [⟨"Name", "PostgresPrimary"⟩]⟩,
         ⟨"i-2", some "5.6.7.8", [⟨"Name", "PostgresReplica-1"⟩]⟩]⟩])
      ⟨0, "", ""⟩ "KEY"
      ⟨"i-1", some "1.2.3.4", "ubuntu", [("Name", "PostgresPrimary")]⟩
      ⟨"i-2", some "5.6.7.8", "ubuntu", [("Name", "PostgresReplica-1")]⟩
      rfl (by decide) (by decide)
    exact ⟨h.1, h.2.1⟩⟩

/-- C9: every inventory written by an apply cycle ends with the
shared-variables section: the `[all:vars]` header followed by exactly the
line `replication_password=rep`. -/
theorem C9_vars_suffix (applyResult : ToolResult)
    (queries : Nat → List Reservation) (keyFetch : Except String String)
    (inv : String)
    (hinv : (apply_infrastructure applyResult queries keyFetch).inventory =
      some inv) :
    ∃ pre, inv = pre ++ "\n[all:vars]\nreplication_password=rep\n" := by
  simp only [apply_infrastructure] at hinv
  split at hinv
  · simp at hinv
  · split at hinv
    · split at hinv
      · simp only [Option.some.injEq] at hinv
        exact ⟨_, by rw [← hinv]; rfl⟩
      · simp only [Option.some.injEq] at hinv
        exact ⟨_, by rw [← hinv]; rfl⟩
    · simp at hinv

set_option maxRecDepth 10000 in
/-- C9 witness: a successful cycle whose concrete inventory is spelled out. -/
theorem C9_vars_suffix_witness :
    (apply_infrastructure ⟨0, "", ""⟩ (fun _ =>
      [⟨[⟨"i-1", some "1.2.3.4", [⟨"Name", "PostgresPrimary"⟩]⟩,
         ⟨"i-2", some "5.6.7.8", [⟨"Name", "PostgresReplica-1"⟩]⟩]⟩])
        (.ok "KEY")).inventory = some
      ("[primary]\nubuntu@1.2.3.4 ansible_python_interpreter=/usr/bin/python3\n[replica]\nubuntu@5.6.7.8 ansible_python_interpreter=/usr/bin/python3\n\n[all:vars]\nreplication_password=rep\n") ∧
    (∃ pre,
      ("[primary]\nubuntu@1.2.3.4 ansible_python_interpreter=/usr/bin/python3\n[replica]\nubuntu@5.6.7.8 ansible_python_interpreter=/usr/bin/python3\n\n[all:vars]\nreplication_password=rep\n") =
        pre ++ "\n[all:vars]\nreplication_password=rep\n") :=
  ⟨by decide, C9_vars_suffix ⟨0, "", ""⟩ (fun _ =>
      [⟨[⟨"i-1", some "1.2.3.4", [⟨"Name", "PostgresPrimary"⟩]⟩,
         ⟨"i-2", some "5.6.7.8", [⟨"Name", "PostgresReplica-1"⟩]⟩]⟩])
      (.ok "KEY") _ (by decide)⟩

theorem rewrap_eq (d : String) : rewrap ⟨500, d⟩ = ⟨500, "500: " ++ d⟩ := by
  unfold rewrap strOfHTTPExc
  rw [show ((toString (500 : Nat)) ++ ": ") = "500: " from rfl]

/-- C3 counterexample: for a tool exiting 1 with stderr "no credentials", the
endpoint fails with HTTP 500 and the body contains "no credentials", but the
response detail is not the stderr verbatim — the blanket exception handler
re-wraps the inner HTTP error, prefixing the status code. -/
theorem C3_counterexample :
    plan_infrastructure ⟨1, "", "no credentials"⟩ =
      .error ⟨500, "500: no credentials"⟩ ∧
    ¬ ("500: no credentials" = "no credentials") ∧
    strHasSub "500: no credentials" "no credentials" = true := by
  decide

/-- C3 amended: for every provisioning-tool invocation (plan or apply) whose
subprocess exits non-zero, the endpoint fails with HTTP 500 and the response
detail is the captured stderr prefixed by "500: " (the handler's blanket
exception clause re-wraps the inner HTTP error), so the stderr text appears
in the body as a substring rather than verbatim as the whole detail. -/
theorem C3_stderr_propagation (r : ToolResult)
    (queries : Nat → List Reservation) (keyFetch : Except String String)
    (hrc : r.returncode ≠ 0) :
    plan_infrastructure r = .error ⟨500, "500: " ++ r.stderr⟩ ∧
    (apply_infrastructure r queries keyFetch).response =
      .error ⟨500, "500: " ++ r.stderr⟩ ∧
    strHasSub ("500: " ++ r.stderr) r.stderr = true := by
  refine ⟨?_, ?_, strHasSub_suffix "500: " r.stderr⟩
  · unfold plan_infrastructure
    rw [if_pos hrc, rewrap_eq]
  · unfold apply_infrastructure
    rw [if_pos hrc, rewrap_eq]

/-- C3 witness: the amended statement at exit code 1 and stderr
"no credentials". -/
theorem C3_stderr_propagation_witness :
    ((⟨1, "", "no credentials"⟩ : ToolResult).returncode ≠ 0) ∧
    (plan_infrastructure ⟨1, "", "no credentials"⟩ =
      .error ⟨500, "500: " ++ "no credentials"⟩ ∧
     (apply_infrastructure ⟨1, "", "no credentials"⟩
        (fun _ => ([] : List Reservation)) (.ok "KEY")).response =
      .error ⟨500, "500: " ++ "no credentials"⟩ ∧
     strHasSub ("500: " ++ "no credentials") "no credentials" = true) :=
  ⟨by decide, C3_stderr_propagation ⟨1, "", "no credentials"⟩
    (fun _ => []) (.ok "KEY") (by decide)⟩

/-- C4: the configuration invocation runs under the fixed 3600-unit timeout;
exceeding it yields HTTP 500 with exactly the fixed timeout message (raised
from the `TimeoutExpired` handler, hence not re-wrapped), and a non-zero exit
yields HTTP 500 whose detail carries the captured stderr. -/
theorem C4_configure_timeout (p : Process) :
    ANSIBLE_TIMEOUT = 3600 ∧
    (p.duration > 3600 →
      configure_database p =
        .error ⟨500, "Ansible playbook execution timed out"⟩) ∧
    (p.duration ≤ 3600 → p.result.returncode ≠ 0 →
      configure_database p = .error ⟨500, "500: " ++ p.result.stderr⟩ ∧
      strHasSub ("500: " ++ p.result.stderr) p.result.stderr = true) := by
  refine ⟨rfl, ?_, ?_⟩
  · intro hd
    have hrun : runWithTimeout ANSIBLE_TIMEOUT p = .timedOut := by
      unfold runWithTimeout ANSIBLE_TIMEOUT
      rw [if_pos hd]
    unfold configure_database
    rw [hrun]
  · intro hd hrc
    have hrun : runWithTimeout ANSIBLE_TIMEOUT p = .completed p.result := by
      unfold runWithTimeout ANSIBLE_TIMEOUT
      rw [if_neg (by omega)]
    refine ⟨?_, strHasSub_suffix "500: " p.result.stderr⟩
    unfold configure_database
    rw [hrun]
    show (if p.result.returncode ≠ 0 then _ else _) = _
    rw [if_pos hrc, rewrap_eq]

/-- C4 witness: one run exceeding the timeout and one failing run within the
bound. -/
theorem C4_configure_timeout_witness :
    ((3601 > 3600) ∧
     configure_database ⟨3601, ⟨0, "", ""⟩⟩ =
       .error ⟨500, "Ansible playbook execution timed out"⟩) ∧
    ((10 ≤ 3600) ∧ ((⟨1, "", "boom"⟩ : ToolResult).returncode ≠ 0) ∧
     (configure_database ⟨10, ⟨1, "", "boom"⟩⟩ =
        .error ⟨500, "500: " ++ "boom"⟩ ∧
      strHasSub ("500: " ++ "boom") "boom" = true)) :=
  ⟨⟨by decide, (C4_configure_timeout ⟨3601, ⟨0, "", ""⟩⟩).2.1 (by decide)⟩,
   ⟨by decide, by decide,
    (C4_configure_timeout ⟨10, ⟨1, "", "boom"⟩⟩).2.2 (by decide) (by decide)⟩⟩

/-- C8: an instance whose public address is absent is still collected by
`fetch_instance_ips`, still counts toward the primary group (and hence toward
the success condition), and the inventory writer still formats an address
into its connection string — Python renders the absent field as "None" — so
the line is written rather than skipped and no failure occurs. -/
theorem C8_missing_ip (res : List Reservation) (resv : Reservation)
    (raw : RawInstance) (hres : resv ∈ res) (hraw : raw ∈ resv.instances)
    (hip : raw.publicIpAddress = none)
    (hname : isPrimaryInfo (toInfo raw) = true) :
    (toInfo raw).ip = none ∧
    toInfo raw ∈ fetch_instance_ips res ∧
    toInfo raw ∈ primary_ips (fetch_instance_ips res) ∧
    1 ≤ (primary_ips (fetch_instance_ips res)).length ∧
    inventoryLine (toInfo raw) =
      "ubuntu@None ansible_python_interpreter=/usr/bin/python3\n" := by
  have hmem : toInfo raw ∈ fetch_instance_ips res := by
    unfold fetch_instance_ips
    exact List.mem_flatMap.mpr ⟨resv, hres, List.mem_map.mpr ⟨raw, hraw, rfl⟩⟩
  have hmem2 : toInfo raw ∈ primary_ips (fetch_instance_ips res) := by
    unfold primary_ips
    exact List.mem_filter.mpr ⟨hmem, hname⟩
  refine ⟨by simp [toInfo, hip], hmem, hmem2, List.length_pos_of_mem hmem2, ?_⟩
  show (toInfo raw).username ++ "@" ++ pyStrOpt (toInfo raw).ip ++
    " ansible_python_interpreter=/usr/bin/python3\n" = _
  have hipi : (toInfo raw).ip = none := by simp [toInfo, hip]
  rw [hipi]
  rfl

/-- C8 witness: a primary-named instance with no public IP. -/
theorem C8_missing_ip_witness :
    ((⟨[⟨"i-3", none, [⟨"Name", "PostgresPrimary"⟩]⟩]⟩ : Reservation) ∈
      [(⟨[⟨"i-3", none, [⟨"Name", "PostgresPrimary"⟩]⟩]⟩ : Reservation)]) ∧
    ((⟨"i-3", none, [⟨"Name", "PostgresPrimary"⟩]⟩ : RawInstance) ∈
      (⟨[⟨"i-3", none, [⟨"Name", "PostgresPrimary"⟩]⟩]⟩ : Reservation).instances) ∧
    ((⟨"i-3", none, [⟨"Name", "PostgresPrimary"⟩]⟩ : RawInstance).publicIpAddress
      = none) ∧
    (isPrimaryInfo (toInfo ⟨"i-3", none, [⟨"Name", "PostgresPrimary"⟩]⟩) = true) ∧
    ((toInfo ⟨"i-3", none, [⟨"Name", "PostgresPrimary"⟩]⟩).ip = none ∧
     toInfo ⟨"i-3", none, [⟨"Name", "PostgresPrimary"⟩]⟩ ∈
       fetch_instance_ips [⟨[⟨"i-3", none, [⟨"Name", "PostgresPrimary"⟩]⟩]⟩] ∧
     toInfo ⟨"i-3", none, [⟨"Name", "PostgresPrimary"⟩]⟩ ∈
       primary_ips (fetch_instance_ips
         [⟨[⟨"i-3", none, [⟨"Name", "PostgresPrimary"⟩]⟩]⟩]) ∧
     1 ≤ (primary_ips (fetch_instance_ips
         [⟨[⟨"i-3", none, [⟨"Name", "PostgresPrimary"⟩]⟩]⟩])).length ∧
     inventoryLine (toInfo ⟨"i-3", none, [⟨"Name", "PostgresPrimary"⟩]⟩) =
       "ubuntu@None ansible_python_interpreter=/usr/bin/python3\n") :=
  ⟨by decide, by decide, rfl, by decide,
   C8_missing_ip [⟨[⟨"i-3", none, [⟨"Name", "PostgresPrimary"⟩]⟩]⟩]
     ⟨[⟨"i-3", none, [⟨"Name", "PostgresPrimary"⟩]⟩]⟩
     ⟨"i-3", none, [⟨"Name", "PostgresPrimary"⟩]⟩
     (by decide) (by decide) rfl (by decide)⟩

theorem dictGet_of_not_mem {pairs : List (String × String)} {key dflt : String}
    (h : ∀ t ∈ pairs, t.fst ≠ key) : dictGet pairs key dflt = dflt := by
  unfold dictGet
  rw [List.find?_eq_none.mpr ?_]
  intro x hx hbeq
  exact h x (List.mem_reverse.mp hx) (by simpa using hbeq)

theorem linesConcat_decomp {info : Instance} :
    ∀ l : List Instance, info ∈ l →
      ∃ a b, linesConcat l = a ++ (inventoryLine info ++ b) := by
  intro l h
  induction l with
  | nil => simp at h
  | cons x l ih =>
    rcases List.mem_cons.mp h with hx | hmem
    · subst hx
      exact ⟨"", linesConcat l, by rw [String.empty_append]; rfl⟩
    · obtain ⟨a, b, hab⟩ := ih hmem
      refine ⟨inventoryLine x ++ a, b, ?_⟩
      show inventoryLine x ++ linesConcat l = _
      rw [hab, String.append_assoc]

/-- C10: role classification is a case-insensitive substring test on the
`Name` tag — a record is in the primary group iff its lowered `Name` contains
"postgresprimary" and in the replica group iff it contains "postgresreplica";
a record with no `Name` tag lands in neither group; a record whose `Name`
contains both patterns lands in both groups and its line is written into both
inventory sections. -/
theorem C10_role_classification :
    (∀ (infos : List Instance) (info : Instance), info ∈ primary_ips infos ↔
      info ∈ infos ∧
        strHasSub (pyLower (dictGet info.tags "Name" "")) "postgresprimary"
          = true) ∧
    (∀ (infos : List Instance) (info : Instance), info ∈ replica_ips infos ↔
      info ∈ infos ∧
        strHasSub (pyLower (dictGet info.tags "Name" "")) "postgresreplica"
          = true) ∧
    (∀ (infos : List Instance) (info : Instance),
      (∀ t ∈ info.tags, t.fst ≠ "Name") →
      info ∉ primary_ips infos ∧ info ∉ replica_ips infos) ∧
    (∀ (infos : List Instance) (info : Instance), info ∈ infos →
      strHasSub (pyLower (dictGet info.tags "Name" "")) "postgresprimary"
        = true →
      strHasSub (pyLower (dictGet info.tags "Name" "")) "postgresreplica"
        = true →
      info ∈ primary_ips infos ∧ info ∈ replica_ips infos) ∧
    (∀ (prim repl : List Instance) (info : Instance),
      info ∈ prim → info ∈ repl →
      strHasSub (primarySection prim) (inventoryLine info) = true ∧
      strHasSub (replicaSection repl) (inventoryLine info) = true ∧
      inventoryContent prim repl =
        primarySection prim ++ replicaSection repl ++ varsSection) := by
  have hprim : ∀ (infos : List Instance) (info : Instance),
      info ∈ primary_ips infos ↔
        info ∈ infos ∧
          strHasSub (pyLower (dictGet info.tags "Name" "")) "postgresprimary"
            = true := by
    intro infos info
    unfold primary_ips
    rw [List.mem_filter]
    unfold isPrimaryInfo nameOf
    exact Iff.rfl
  have hrepl : ∀ (infos : List Instance) (info : Instance),
      info ∈ replica_ips infos ↔
        info ∈ infos ∧
          strHasSub (pyLower (dictGet info.tags "Name" "")) "postgresreplica"
            = true := by
    intro infos info
    unfold replica_ips
    rw [List.mem_filter]
    unfold isReplicaInfo nameOf
    exact Iff.rfl
  refine ⟨hprim, hrepl, ?_, ?_, ?_⟩
  · intro infos info h
    have hd : dictGet info.tags "Name" "" = "" := dictGet_of_not_mem h
    constructor
    · intro hmem
      have := ((hprim infos info).mp hmem).2
      rw [hd] at this
      exact absurd this (by decide)
    · intro hmem
      have := ((hrepl infos info).mp hmem).2
      rw [hd] at this
      exact absurd this (by decide)
  · intro infos info hmem h1 h2
    exact ⟨(hprim infos info).mpr ⟨hmem, h1⟩, (hrepl infos info).mpr ⟨hmem, h2⟩⟩
  · intro prim repl info hp hr
    obtain ⟨a, b, hab⟩ := linesConcat_decomp prim hp
    obtain ⟨c, d, hcd⟩ := linesConcat_decomp repl hr
    refine ⟨?_, ?_, rfl⟩
    · refine strHasSub_of_eq _ ("[primary]\n" ++ a) _ b ?_
      show "[primary]\n" ++ linesConcat prim = _
      rw [hab, String.append_assoc]
    · refine strHasSub_of_eq _ ("[replica]\n" ++ c) _ d ?_
      show "[replica]\n" ++ linesConcat repl = _
      rw [hcd, String.append_assoc]

set_option maxRecDepth 10000 in
/-- C10 witness: a record without a `Name` tag lands in neither group, and a
record whose `Name` contains both patterns lands in both groups and both
inventory sections. -/
theorem C10_role_classification_witness :
    ((∀ t ∈ ([("Role", "db")] : List (String × String)), t.fst ≠ "Name") ∧
     ((⟨"i-8", none, "ubuntu", [("Role", "db")]⟩ : Instance) ∉
        primary_ips [⟨"i-8", none, "ubuntu", [("Role", "db")]⟩] ∧
      (⟨"i-8", none, "ubuntu", [("Role", "db")]⟩ : Instance) ∉
        replica_ips [⟨"i-8", none, "ubuntu", [("Role", "db")]⟩])) ∧
    ((⟨"i-9", some "9.9.9.9", "ubuntu",
        [("Name", "PostgresPrimary-PostgresReplica")]⟩ : Instance) ∈
      [(⟨"i-9", some "9.9.9.9", "ubuntu",
        [("Name", "PostgresPrimary-PostgresReplica")]⟩ : Instance)] ∧
     strHasSub (pyLower (dictGet ([("Name", "PostgresPrimary-PostgresReplica")])
       "Name" "")) "postgresprimary" = true ∧
     strHasSub (pyLower (dictGet ([("Name", "PostgresPrimary-PostgresReplica")])
       "Name" "")) "postgresreplica" = true ∧
     ((⟨"i-9", some "9.9.9.9", "ubuntu",
         [("Name", "PostgresPrimary-PostgresReplica")]⟩ : Instance) ∈
        primary_ips [⟨"i-9", some "9.9.9.9", "ubuntu",
          [("Name", "PostgresPrimary-PostgresReplica")]⟩] ∧
      (⟨"i-9", some "9.9.9.9", "ubuntu",
         [("Name", "PostgresPrimary-PostgresReplica")]⟩ : Instance) ∈
        replica_ips [⟨"i-9", some "9.9.9.9", "ubuntu",
          [("Name", "PostgresPrimary-PostgresReplica")]⟩])) ∧
    (strHasSub (primarySection [⟨"i-9", some "9.9.9.9", "ubuntu",
        [("Name", "PostgresPrimary-PostgresReplica")]⟩])
      (inventoryLine ⟨"i-9", some "9.9.9.9", "ubuntu",
        [("Name", "PostgresPrimary-PostgresReplica")]⟩) = true ∧
     strHasSub (replicaSection [⟨"i-9", some "9.9.9.9", "ubuntu",
        [("Name", "PostgresPrimary-PostgresReplica")]⟩])
      (inventoryLine ⟨"i-9", some "9.9.9.9", "ubuntu",
        [("Name", "PostgresPrimary-PostgresReplica")]⟩) = true ∧
     inventoryContent [⟨"i-9", some "9.9.9.9", "ubuntu",
        [("Name", "PostgresPrimary-PostgresReplica")]⟩]
       [⟨"i-9", some "9.9.9.9", "ubuntu",
        [("Name", "PostgresPrimary-PostgresReplica")]⟩] =
       primarySection [⟨"i-9", some "9.9.9.9", "ubuntu",
        [("Name", "PostgresPrimary-PostgresReplica")]⟩] ++
       replicaSection [⟨"i-9", some "9.9.9.9", "ubuntu",
        [("Name", "PostgresPrimary-PostgresReplica")]⟩] ++ varsSection) :=
  ⟨⟨by decide, C10_role_classification.2.2.1
      [⟨"i-8", none, "ubuntu", [("Role", "db")]⟩]
      ⟨"i-8", none, "ubuntu", [("Role", "db")]⟩ (by decide)⟩,
   ⟨by decide, by decide, by decide,
    C10_role_classification.2.2.2.1
      [⟨"i-9", some "9.9.9.9", "ubuntu",
        [("Name", "PostgresPrimary-PostgresReplica")]⟩]
      ⟨"i-9", some "9.9.9.9", "ubuntu",
        [("Name", "PostgresPrimary-PostgresReplica")]⟩
      (by decide) (by decide) (by decide)⟩,
   C10_role_classification.2.2.2.2
     [⟨"i-9", some "9.9.9.9", "ubuntu",
        [("Name", "PostgresPrimary-PostgresReplica")]⟩]
     [⟨"i-9", some "9.9.9.9", "ubuntu",
        [("Name", "PostgresPrimary-PostgresReplica")]⟩]
     ⟨"i-9", some "9.9.9.9", "ubuntu",
        [("Name", "PostgresPrimary-PostgresReplica")]⟩
     (by decide) (by decide)⟩

set_option maxRecDepth 8000 in
/-- C6 counterexample: supplying the value "Z" for the engine-version,
connection-limit and buffer-size parameters leaves both artifacts identical
to the default rendering, and neither artifact contains the supplied value —
those three parameters are extracted but never interpolated, so they are not
passed through into the generated text. -/
theorem C6_counterexample :
    ((generate_code ⟨some "Z", none, none, some "Z", some "Z"⟩
        (fun _ => none)).1 terraform_file =
      some (terraform_config "t2.micro" "1")) ∧
    ((generate_code ⟨some "Z", none, none, some "Z", some "Z"⟩
        (fun _ => none)).1 ansible_file = some ansible_playbook) ∧
    strHasSub (terraform_config "t2.micro" "1") "Z" = false ∧
    strHasSub ansible_playbook "Z" = false := by
  refine ⟨?_, ?_, ?_, ?_⟩
  · show (fsWrite (fsWrite (fun _ => none) terraform_file
      (terraform_config "t2.micro" "1")) ansible_file ansible_playbook)
        terraform_file = _
    unfold fsWrite
    rw [if_neg (by decide), if_pos rfl]
  · show (fsWrite (fsWrite (fun _ => none) terraform_file
      (terraform_config "t2.micro" "1")) ansible_file ansible_playbook)
        ansible_file = _
    unfold fsWrite
    rw [if_pos rfl]
  · show containsChars ("Z".data) (terraform_config "t2.micro" "1").data = false
    rw [show "Z".data = ['Z'] from rfl]
    apply containsChars_eq_false_of_charMem
    simp only [terraform_config, tfSeg1, tfSeg2, tfSeg3, tfSeg4, KEY_PAIR_NAME,
      String.data_append, charMem_append]
    decide
  · show containsChars ("Z".data) ansible_playbook.data = false
    rw [show "Z".data = ['Z'] from rfl]
    apply containsChars_eq_false_of_charMem
    simp only [ansible_playbook, String.data_append, charMem_append]
    decide

/-- C6 amended: the renderer accepts the five parameters without any
validation, and the machine-size and replica-count values are passed through
verbatim into the generated declaration (machine size twice, replica count
once); the engine-version, connection-limit and buffer-size parameters are
extracted but ignored — rendering with any values for them produces exactly
the default artifacts; with the default parameters the declaration contains
the literal machine-size value "t2.micro" and replica-count value "1". -/
theorem C6_render_passthrough (pv mc sb : Option String) (itv nrv : String)
    (fs : FS) :
    generate_code ⟨pv, some itv, some nrv, mc, sb⟩ fs =
      generate_code ⟨none, some itv, some nrv, none, none⟩ fs ∧
    (generate_code ⟨pv, some itv, some nrv, mc, sb⟩ fs).1 terraform_file =
      some (terraform_config itv nrv) ∧
    (generate_code ⟨pv, some itv, some nrv, mc, sb⟩ fs).2 =
      "Terraform and Ansible configurations generated successfully" ∧
    strHasSub (terraform_config itv nrv) itv = true ∧
    strHasSub (terraform_config itv nrv) nrv = true ∧
    strHasSub (terraform_config "t2.micro" "1") "t2.micro" = true ∧
    strHasSub (terraform_config "t2.micro" "1") "1" = true := by
  refine ⟨rfl, ?_, rfl, ?_, ?_, ?_, ?_⟩
  · show (fsWrite (fsWrite fs terraform_file (terraform_config itv nrv))
      ansible_file ansible_playbook) terraform_file = _
    unfold fsWrite
    rw [if_neg (by decide), if_pos rfl]
  · refine strHasSub_of_eq _ tfSeg1 itv
      (tfSeg2 ++ nrv ++ tfSeg3 ++ itv ++ tfSeg4) ?_
    simp [terraform_config, String.append_assoc]
  · refine strHasSub_of_eq _ (tfSeg1 ++ itv ++ tfSeg2) nrv
      (tfSeg3 ++ itv ++ tfSeg4) ?_
    simp [terraform_config, String.append_assoc]
  · refine strHasSub_of_eq _ tfSeg1 "t2.micro"
      (tfSeg2 ++ "1" ++ tfSeg3 ++ "t2.micro" ++ tfSeg4) ?_
    simp [terraform_config, String.append_assoc]
  · refine strHasSub_of_eq _ (tfSeg1 ++ "t2.micro" ++ tfSeg2) "1"
      (tfSeg3 ++ "t2.micro" ++ tfSeg4) ?_
    simp [terraform_config, String.append_assoc]

/-- C7: rendering is deterministic and idempotent — a second call with the
same parameters rewrites both files with byte-identical content, leaving the
filesystem unchanged, and the written contents are functions of the
parameters alone. -/
theorem C7_idempotent_render (config : GenConfig) (fs : FS) :
    (generate_code config ((generate_code config fs).1)).1 =
      (generate_code config fs).1 ∧
    (generate_code config fs).1 terraform_file =
      some (terraform_config (config.instance_type.getD "t2.micro")
        (config.num_replicas.getD "1")) ∧
    (generate_code config fs).1 ansible_file = some ansible_playbook ∧
    (generate_code config fs).2 =
      "Terraform and Ansible configurations generated successfully" := by
  refine ⟨?_, ?_, ?_, rfl⟩
  · funext p
    show (fsWrite (fsWrite (fsWrite (fsWrite fs terraform_file _)
      ansible_file _) terraform_file _) ansible_file _) p =
      (fsWrite (fsWrite fs terraform_file _) ansible_file _) p
    unfold fsWrite
    by_cases h1 : p = ansible_file
    · rw [if_pos h1, if_pos h1]
    · rw [if_neg h1, if_neg h1]
      by_cases h2 : p = terraform_file
      · rw [if_pos h2, if_pos h2]
      · simp [h1, h2]
  · show (fsWrite (fsWrite fs terraform_file
        (terraform_config (config.instance_type.getD "t2.micro")
          (config.num_replicas.getD "1"))) ansible_file ansible_playbook)
      terraform_file =
      some (terraform_config (config.instance_type.getD "t2.micro")
        (config.num_replicas.getD "1"))
    unfold fsWrite
    rw [if_neg (by decide), if_pos rfl]
  · show (fsWrite (fsWrite fs terraform_file
        (terraform_config (config.instance_type.getD "t2.micro")
          (config.num_replicas.getD "1"))) ansible_file ansible_playbook)
      ansible_file = some ansible_playbook
    unfold fsWrite
    rw [if_pos rfl]

end PgRepl
